import Mathlib

/-!
Shallow embedding of the traffic-filter resources of terraform-provider-ec
(serverless traffic filter entity resource and traffic filter association
resource), together with theorems about the reconciliation logic.

The embedding models each lifecycle operation as a pure function of the
declared/tracked model and of the transport responses it consumes.  A
transport response is modelled by the fields the Go code actually reads:
the transport error (`err`), the HTTP status code of the underlying
`http.Response` when one is present (`httpStatus`), the decoded success
payload (`json200`), and the raw status line and body used for error
formatting.  Diagnostics are modelled as a list of (summary, detail)
pairs; every diagnostic the code under study appends is an error, so
`HasError` corresponds to the list being nonempty.
-/

/-- A traffic filter reference inside a project record
(`serverless.TrafficFilter`): just the filter id. -/
structure TrafficFilter where
  Id : String
deriving Repr, DecidableEq

/-- One entry of a diagnostics collection: an error diagnostic with a
summary and a detail, as produced by `diag.Diagnostics.AddError`. -/
structure Diagnostic where
  summary : String
  detail : String
deriving Repr, DecidableEq

/-- The tracked model of the association resource (`modelV0`):
`id`, `project_id`, `project_type`, `traffic_filter_id`.  The `ID`
attribute is `none` while still unknown (during plan). -/
structure ModelV0 where
  ID : Option String
  ProjectID : String
  ProjectType : String
  TrafficFilterID : String
deriving Repr, DecidableEq

/-- Response of a project Get call, projected to the fields the code
reads.  `json200 = none` models `resp.JSON200 == nil`; `json200 = some
none` models a decoded project whose `TrafficFilters` field is `nil`;
`json200 = some (some fs)` models a decoded project with filter list
`fs`. -/
structure ProjectGetResponse where
  err : Option String
  httpStatus : Option Nat
  json200 : Option (Option (List TrafficFilter))
  status : String
  body : String
deriving Repr, DecidableEq

/-- Response of a project Patch call, projected to the fields the code
reads.  `json200` records whether `resp.JSON200 != nil`. -/
structure ProjectPatchResponse where
  err : Option String
  httpStatus : Option Nat
  json200 : Bool
  status : String
  body : String
deriving Repr, DecidableEq

/-- The `StatusCode()` helper of the generated client: the status code of
the `HTTPResponse` when present, `0` otherwise. -/
def statusCodeOf (httpStatus : Option Nat) : Nat :=
  httpStatus.getD 0

/-- The detail string `fmt.Sprintf("The API request failed with: %d %s\n%s",
resp.StatusCode(), resp.Status(), string(resp.Body))` shared by the error
branches. -/
def apiFailDetail (statusCode : Nat) (status body : String) : String :=
  "The API request failed with: " ++ toString statusCode ++ " " ++ status ++ "\n" ++ body

/-- The `case "elasticsearch"` branch of `getProjectTrafficFilters`:
transport error, then 404 check, then nil-payload check, then the
nil-filters-to-empty-slice mapping. -/
def getElasticsearchProjectFilters (projectID : String) (resp : ProjectGetResponse) :
    Option (List TrafficFilter) × List Diagnostic :=
  match resp.err with
  | some e => (none, [⟨"Failed to read project", e⟩])
  | none =>
    if resp.httpStatus = some 404 then
      (none, [⟨"Project not found", "Elasticsearch project " ++ projectID ++ " not found"⟩])
    else
      match resp.json200 with
      | none =>
        (none, [⟨"Failed to read project",
          apiFailDetail (statusCodeOf resp.httpStatus) resp.status resp.body⟩])
      | some none => (some [], [])
      | some (some fs) => (some fs, [])

/-- The `case "observability"` branch of `getProjectTrafficFilters`. -/
def getObservabilityProjectFilters (projectID : String) (resp : ProjectGetResponse) :
    Option (List TrafficFilter) × List Diagnostic :=
  match resp.err with
  | some e => (none, [⟨"Failed to read project", e⟩])
  | none =>
    if resp.httpStatus = some 404 then
      (none, [⟨"Project not found", "Observability project " ++ projectID ++ " not found"⟩])
    else
      match resp.json200 with
      | none =>
        (none, [⟨"Failed to read project",
          apiFailDetail (statusCodeOf resp.httpStatus) resp.status resp.body⟩])
      | some none => (some [], [])
      | some (some fs) => (some fs, [])

/-- The `case "security"` branch of `getProjectTrafficFilters`. -/
def getSecurityProjectFilters (projectID : String) (resp : ProjectGetResponse) :
    Option (List TrafficFilter) × List Diagnostic :=
  match resp.err with
  | some e => (none, [⟨"Failed to read project", e⟩])
  | none =>
    if resp.httpStatus = some 404 then
      (none, [⟨"Project not found", "Security project " ++ projectID ++ " not found"⟩])
    else
      match resp.json200 with
      | none =>
        (none, [⟨"Failed to read project",
          apiFailDetail (statusCodeOf resp.httpStatus) resp.status resp.body⟩])
      | some none => (some [], [])
      | some (some fs) => (some fs, [])

/-- `getProjectTrafficFilters`: dispatch on the project type string; the
`default` branch adds the unknown-project-type error. -/
def getProjectTrafficFilters (projectID projectType : String) (resp : ProjectGetResponse) :
    Option (List TrafficFilter) × List Diagnostic :=
  if projectType = "elasticsearch" then
    getElasticsearchProjectFilters projectID resp
  else if projectType = "observability" then
    getObservabilityProjectFilters projectID resp
  else if projectType = "security" then
    getSecurityProjectFilters projectID resp
  else
    (none, [⟨"Invalid project type", "Unknown project type: " ++ projectType⟩])

/-- The `case "elasticsearch"` branch of `patchProjectTrafficFilters`.
The first component is the traffic-filter list carried by the patch
request body (`patchReq.TrafficFilters`); the second is the diagnostics
produced from the response. -/
def patchElasticsearchProjectFilters (filters : List TrafficFilter)
    (resp : ProjectPatchResponse) : List TrafficFilter × List Diagnostic :=
  match resp.err with
  | some e => (filters, [⟨"Failed to update project", e⟩])
  | none =>
    if resp.json200 then (filters, [])
    else
      (filters, [⟨"Failed to update project",
        apiFailDetail (statusCodeOf resp.httpStatus) resp.status resp.body⟩])

/-- The `case "observability"` branch of `patchProjectTrafficFilters`. -/
def patchObservabilityProjectFilters (filters : List TrafficFilter)
    (resp : ProjectPatchResponse) : List TrafficFilter × List Diagnostic :=
  match resp.err with
  | some e => (filters, [⟨"Failed to update project", e⟩])
  | none =>
    if resp.json200 then (filters, [])
    else
      (filters, [⟨"Failed to update project",
        apiFailDetail (statusCodeOf resp.httpStatus) resp.status resp.body⟩])

/-- The `case "security"` branch of `patchProjectTrafficFilters`. -/
def patchSecurityProjectFilters (filters : List TrafficFilter)
    (resp : ProjectPatchResponse) : List TrafficFilter × List Diagnostic :=
  match resp.err with
  | some e => (filters, [⟨"Failed to update project", e⟩])
  | none =>
    if resp.json200 then (filters, [])
    else
      (filters, [⟨"Failed to update project",
        apiFailDetail (statusCodeOf resp.httpStatus) resp.status resp.body⟩])

/-- `patchProjectTrafficFilters`: dispatch on the project type string.
The first component is `some sent` when a transport patch call was issued
with request body `sent`, and `none` in the `default` branch, which makes
no call. -/
def patchProjectTrafficFilters (projectType : String) (filters : List TrafficFilter)
    (resp : ProjectPatchResponse) : Option (List TrafficFilter) × List Diagnostic :=
  if projectType = "elasticsearch" then
    let r := patchElasticsearchProjectFilters filters resp
    (some r.1, r.2)
  else if projectType = "observability" then
    let r := patchObservabilityProjectFilters filters resp
    (some r.1, r.2)
  else if projectType = "security" then
    let r := patchSecurityProjectFilters filters resp
    (some r.1, r.2)
  else
    (none, [⟨"Invalid project type", "Unknown project type: " ++ projectType⟩])

/-- Outcome of association `Create`: the accumulated diagnostics, the
traffic-filter list sent by the patch call when one was issued, and the
state written back (`none` when the operation errored before setting
state). -/
structure CreateResult where
  diagnostics : List Diagnostic
  patchSent : Option (List TrafficFilter)
  finalState : Option ModelV0
deriving Repr, DecidableEq

/-- Association `Resource.Create`: read the current filters, return early
on error; if the filter id is already a member, set state with the
computed id and issue no patch; otherwise append the new filter and patch
the full list. -/
def createAssociation (model : ModelV0) (getResp : ProjectGetResponse)
    (patchResp : ProjectPatchResponse) : CreateResult :=
  match getProjectTrafficFilters model.ProjectID model.ProjectType getResp with
  | (_, d :: ds) => ⟨d :: ds, none, none⟩
  | (filtersOpt, []) =>
    let currentFilters := filtersOpt.getD []
    if currentFilters.any (fun f => f.Id == model.TrafficFilterID) then
      ⟨[], none,
        some { model with ID := some (model.ProjectID ++ "-" ++ model.TrafficFilterID) }⟩
    else
      let newFilters := currentFilters ++ [⟨model.TrafficFilterID⟩]
      match patchProjectTrafficFilters model.ProjectType newFilters patchResp with
      | (sent, d :: ds) => ⟨d :: ds, sent, none⟩
      | (sent, []) =>
        ⟨[], sent,
          some { model with ID := some (model.ProjectID ++ "-" ++ model.TrafficFilterID) }⟩

/-- Outcome of association `Resource.Read`: an error, removal of the
tracked record, or keeping a state. -/
inductive ReadOutcome where
  | errored (diagnostics : List Diagnostic)
  | removed
  | kept (state : ModelV0)
deriving Repr, DecidableEq

/-- Association `Resource.Read`: read the current filters, return early on
error; remove the resource from state when the filter id is no longer a
member, otherwise keep the tracked model unchanged. -/
def readAssociation (model : ModelV0) (getResp : ProjectGetResponse) : ReadOutcome :=
  match getProjectTrafficFilters model.ProjectID model.ProjectType getResp with
  | (_, d :: ds) => .errored (d :: ds)
  | (filtersOpt, []) =>
    let currentFilters := filtersOpt.getD []
    if currentFilters.any (fun f => f.Id == model.TrafficFilterID) then
      .kept model
    else
      .removed

/-- Outcome of association `Resource.Delete`: the accumulated diagnostics
and the traffic-filter list sent by the patch call when one was issued. -/
structure DeleteResult where
  diagnostics : List Diagnostic
  patchSent : Option (List TrafficFilter)
deriving Repr, DecidableEq

/-- Association `Resource.Delete`: read the current filters, return early
on error; keep every entry whose id differs from the target filter id and
patch the resulting list. -/
def deleteAssociation (model : ModelV0) (getResp : ProjectGetResponse)
    (patchResp : ProjectPatchResponse) : DeleteResult :=
  match getProjectTrafficFilters model.ProjectID model.ProjectType getResp with
  | (_, d :: ds) => ⟨d :: ds, none⟩
  | (filtersOpt, []) =>
    let currentFilters := filtersOpt.getD []
    let newFilters := currentFilters.filter (fun f => f.Id != model.TrafficFilterID)
    let p := patchProjectTrafficFilters model.ProjectType newFilters patchResp
    ⟨p.2, p.1⟩

/-- Result of association `Resource.ImportState`: either a fatal
diagnostic or the four attributes written to state.  On success the
attributes are set directly from the components of the import key, with
no server read. -/
inductive ImportResult where
  | failed (diagnostic : Diagnostic)
  | ok (id projectID projectType trafficFilterID : String)
deriving Repr, DecidableEq

/-- `strings.Split(s, ",")` for the one-character separator `","`: split
the character list around every comma, keeping empty components. -/
def splitCommaChars : List Char → List (List Char)
  | [] => [[]]
  | c :: rest =>
    if c = ',' then [] :: splitCommaChars rest
    else
      match splitCommaChars rest with
      | [] => [[c]]
      | g :: gs => (c :: g) :: gs

/-- String-level wrapper of `splitCommaChars`, the embedding of
`strings.Split(req.ID, ",")`. -/
def splitComma (s : String) : List String :=
  (splitCommaChars s.data).map (fun cs => String.mk cs)

/-- Association `Resource.ImportState`: split the import key on commas;
fail with "Invalid import ID" when the component count is not 3, with
"Invalid project type" when the middle component is not one of the three
recognized kinds; otherwise set `id`, `project_id`, `project_type` and
`traffic_filter_id` from the components. -/
def importStateAssociation (reqID : String) : ImportResult :=
  match splitComma reqID with
  | [projectID, projectType, trafficFilterID] =>
    if projectType ≠ "elasticsearch" ∧ projectType ≠ "observability" ∧
        projectType ≠ "security" then
      .failed ⟨"Invalid project type",
        "project_type must be one of: elasticsearch, observability, security. Got: " ++
          projectType⟩
    else
      .ok (projectID ++ "-" ++ trafficFilterID) projectID projectType trafficFilterID
  | _ =>
    .failed ⟨"Invalid import ID",
      "Expected format: project_id,project_type,traffic_filter_id. Got: " ++ reqID⟩

/-- A rule of a traffic filter as decoded from the API
(`serverless.TrafficFilterRule`). -/
structure TrafficFilterRule where
  Source : String
  Description : Option String
deriving Repr, DecidableEq

/-- The decoded traffic filter entity (`serverless.TrafficFilterInfo`),
projected to the fields `modelFromResponse` reads.  `TfType` stands for
the Go field `Type`, which is not a legal Lean field name. -/
structure TrafficFilterInfo where
  Id : String
  Name : String
  Region : String
  TfType : String
  Description : Option String
  IncludeByDefault : Bool
  Rules : List TrafficFilterRule
deriving Repr, DecidableEq

/-- One rule block of the tracked filter model
(`TrafficFilterRuleModel`). -/
structure TrafficFilterRuleModel where
  Source : String
  Description : Option String
deriving Repr, DecidableEq

/-- The tracked model of the filter entity resource
(`TrafficFilterModel`).  `TfType` stands for the Go field `Type`. -/
structure TrafficFilterModel where
  ID : String
  Name : String
  TfType : String
  Region : String
  Description : Option String
  IncludeByDefault : Bool
  Rules : List TrafficFilterRuleModel
deriving Repr, DecidableEq

/-- `modelFromResponse`: build the tracked model from a decoded filter;
an absent or empty description maps to an unset attribute, and each rule
is converted the same way. -/
def modelFromResponse (info : TrafficFilterInfo) : TrafficFilterModel :=
  { ID := info.Id
    Name := info.Name
    TfType := info.TfType
    Region := info.Region
    IncludeByDefault := info.IncludeByDefault
    Description :=
      match info.Description with
      | some d => if d ≠ "" then some d else none
      | none => none
    Rules :=
      info.Rules.map (fun rule =>
        { Source := rule.Source
          Description :=
            match rule.Description with
            | some d => if d ≠ "" then some d else none
            | none => none }) }

/-- Response of the filter entity Get call, projected to the fields the
code reads. -/
structure FilterGetResponse where
  err : Option String
  httpStatus : Option Nat
  json200 : Option TrafficFilterInfo
  status : String
  body : String
deriving Repr, DecidableEq

/-- Outcome of filter entity `Resource.Read`: an error, removal of the
tracked record, or keeping a refreshed state. -/
inductive FilterReadOutcome where
  | errored (diagnostics : List Diagnostic)
  | removed
  | kept (state : TrafficFilterModel)
deriving Repr, DecidableEq

/-- Filter entity `Resource.Read`: transport error first; a 404 removes
the resource from state; a missing decoded payload is a fatal error;
otherwise the state is refreshed from the response. -/
def readTrafficFilter (resp : FilterGetResponse) : FilterReadOutcome :=
  match resp.err with
  | some e => .errored [⟨"Failed to read traffic filter", e⟩]
  | none =>
    if resp.httpStatus = some 404 then
      .removed
    else
      match resp.json200 with
      | none =>
        .errored [⟨"Failed to read traffic filter",
          apiFailDetail (statusCodeOf resp.httpStatus) resp.status resp.body⟩]
      | some info => .kept (modelFromResponse info)

/-- Response of the filter entity Delete call, projected to the fields
the code reads. -/
structure FilterDeleteResponse where
  err : Option String
  httpStatus : Option Nat
  status : String
  body : String
deriving Repr, DecidableEq

/-- Filter entity `Resource.Delete`: transport error first; then a status
other than 200, 204 or 404 is a fatal error carrying the status code,
status line and raw body; 200, 204 and 404 all succeed. -/
def deleteTrafficFilter (resp : FilterDeleteResponse) : List Diagnostic :=
  match resp.err with
  | some e => [⟨"Failed to delete traffic filter", e⟩]
  | none =>
    let statusCode := statusCodeOf resp.httpStatus
    if statusCode ≠ 200 ∧ statusCode ≠ 204 ∧ statusCode ≠ 404 then
      [⟨"Failed to delete traffic filter", apiFailDetail statusCode resp.status resp.body⟩]
    else
      []

/-! Shared helper lemmas about the dispatch functions. -/

/-- A successful membership read is only possible through one of the
three recognized project-type branches. -/
theorem getProjectTrafficFilters_ok_valid_type (pid pt : String) (r : ProjectGetResponse)
    (S : List TrafficFilter)
    (h : getProjectTrafficFilters pid pt r = (some S, [])) :
    pt = "elasticsearch" ∨ pt = "observability" ∨ pt = "security" := by
  by_cases h1 : pt = "elasticsearch"
  · exact Or.inl h1
  by_cases h2 : pt = "observability"
  · exact Or.inr (Or.inl h2)
  by_cases h3 : pt = "security"
  · exact Or.inr (Or.inr h3)
  exfalso
  simp [getProjectTrafficFilters, h1, h2, h3] at h

/-- The elasticsearch patch branch always carries the given filter list
in its request body. -/
theorem patchElasticsearchProjectFilters_fst (fs : List TrafficFilter)
    (r : ProjectPatchResponse) : (patchElasticsearchProjectFilters fs r).1 = fs := by
  unfold patchElasticsearchProjectFilters
  rcases r.err with _ | e
  · by_cases hj : r.json200 <;> simp [hj]
  · rfl

/-- The observability patch branch always carries the given filter list
in its request body. -/
theorem patchObservabilityProjectFilters_fst (fs : List TrafficFilter)
    (r : ProjectPatchResponse) : (patchObservabilityProjectFilters fs r).1 = fs := by
  unfold patchObservabilityProjectFilters
  rcases r.err with _ | e
  · by_cases hj : r.json200 <;> simp [hj]
  · rfl

/-- The security patch branch always carries the given filter list in
its request body. -/
theorem patchSecurityProjectFilters_fst (fs : List TrafficFilter)
    (r : ProjectPatchResponse) : (patchSecurityProjectFilters fs r).1 = fs := by
  unfold patchSecurityProjectFilters
  rcases r.err with _ | e
  · by_cases hj : r.json200 <;> simp [hj]
  · rfl

/-- For a recognized project type, the patch dispatch issues a call whose
body carries exactly the given filter list. -/
theorem patchProjectTrafficFilters_sent (pt : String) (fs : List TrafficFilter)
    (r : ProjectPatchResponse)
    (hv : pt = "elasticsearch" ∨ pt = "observability" ∨ pt = "security") :
    (patchProjectTrafficFilters pt fs r).1 = some fs := by
  rcases hv with h | h | h <;> subst h <;>
    simp [patchProjectTrafficFilters, patchElasticsearchProjectFilters_fst,
      patchObservabilityProjectFilters_fst, patchSecurityProjectFilters_fst]

/-- For a recognized project type, a patch whose response decodes a
success payload produces no diagnostics. -/
theorem patchProjectTrafficFilters_ok (pt : String) (fs : List TrafficFilter)
    (r : ProjectPatchResponse)
    (hv : pt = "elasticsearch" ∨ pt = "observability" ∨ pt = "security")
    (herr : r.err = none) (hjson : r.json200 = true) :
    patchProjectTrafficFilters pt fs r = (some fs, []) := by
  rcases hv with h | h | h <;> subst h <;>
    simp [patchProjectTrafficFilters, patchElasticsearchProjectFilters,
      patchObservabilityProjectFilters, patchSecurityProjectFilters, herr, hjson]

/-- When the target filter id is absent from the successfully read set,
Create issues a patch whose body is exactly the read list with the new
filter appended. -/
theorem createAssociation_patchSent_of_not_member (model : ModelV0)
    (getResp : ProjectGetResponse) (patchResp : ProjectPatchResponse)
    (S : List TrafficFilter)
    (hget : getProjectTrafficFilters model.ProjectID model.ProjectType getResp = (some S, []))
    (habs : ∀ f ∈ S, f.Id ≠ model.TrafficFilterID) :
    (createAssociation model getResp patchResp).patchSent =
      some (S ++ [⟨model.TrafficFilterID⟩]) := by
  have hv := getProjectTrafficFilters_ok_valid_type _ _ _ _ hget
  have hany : S.any (fun f => f.Id == model.TrafficFilterID) = false := by
    simp only [List.any_eq_false, beq_iff_eq]
    exact habs
  have hsent := patchProjectTrafficFilters_sent model.ProjectType
    (S ++ [⟨model.TrafficFilterID⟩]) patchResp hv
  unfold createAssociation
  rw [hget]
  simp only [Option.getD_some, hany, Bool.false_eq_true, if_false]
  rcases hp : patchProjectTrafficFilters model.ProjectType
      (S ++ [⟨model.TrafficFilterID⟩]) patchResp with ⟨sent, ds⟩
  rw [hp] at hsent
  rw [hp]
  cases ds <;> simpa using hsent

/-- C1: for every project whose current membership set read by Create is
`S` with the target filter id absent, association Create patches exactly
`S` with the new filter appended: every member of `S` is kept and
nothing but the target filter is added. -/
theorem create_preserves_members (model : ModelV0) (getResp : ProjectGetResponse)
    (patchResp : ProjectPatchResponse) (S : List TrafficFilter)
    (hget : getProjectTrafficFilters model.ProjectID model.ProjectType getResp = (some S, []))
    (habs : ∀ f ∈ S, f.Id ≠ model.TrafficFilterID) :
    (createAssociation model getResp patchResp).patchSent =
      some (S ++ [⟨model.TrafficFilterID⟩]) ∧
    (∀ f ∈ S, f ∈ S ++ [(⟨model.TrafficFilterID⟩ : TrafficFilter)]) ∧
    ∀ f ∈ S ++ [(⟨model.TrafficFilterID⟩ : TrafficFilter)],
      f ∈ S ∨ f = ⟨model.TrafficFilterID⟩ := by
  refine ⟨createAssociation_patchSent_of_not_member model getResp patchResp S hget habs,
    fun f hf => List.mem_append_left _ hf, fun f hf => ?_⟩
  rcases List.mem_append.mp hf with h | h
  · exact Or.inl h
  · exact Or.inr (List.mem_singleton.mp h)

/-- Witness for C1 at the spec's concrete instance: members A and B with
new filter C produce the patched list [A, B, C]. -/
theorem create_preserves_members_witness :
    (createAssociation ⟨none, "p", "elasticsearch", "C"⟩
        ⟨none, some 200, some (some [⟨"A"⟩, ⟨"B"⟩]), "200 OK", ""⟩
        ⟨none, some 200, true, "200 OK", ""⟩).patchSent =
      some [⟨"A"⟩, ⟨"B"⟩, ⟨"C"⟩] :=
  (create_preserves_members ⟨none, "p", "elasticsearch", "C"⟩
    ⟨none, some 200, some (some [⟨"A"⟩, ⟨"B"⟩]), "200 OK", ""⟩
    ⟨none, some 200, true, "200 OK", ""⟩ [⟨"A"⟩, ⟨"B"⟩] (by rfl) (by decide)).1

/-- C2: when the filter id is already a member of the set read by Create,
Create succeeds with no diagnostics, issues no patch call, and records
the identity `projectID-filterID` in state. -/
theorem create_idempotent (model : ModelV0) (getResp : ProjectGetResponse)
    (patchResp : ProjectPatchResponse) (S : List TrafficFilter)
    (hget : getProjectTrafficFilters model.ProjectID model.ProjectType getResp = (some S, []))
    (hmem : ∃ f ∈ S, f.Id = model.TrafficFilterID) :
    createAssociation model getResp patchResp =
      ⟨[], none,
        some { model with ID := some (model.ProjectID ++ "-" ++ model.TrafficFilterID) }⟩ := by
  have hany : S.any (fun f => f.Id == model.TrafficFilterID) = true := by
    simp only [List.any_eq_true, beq_iff_eq]
    exact hmem
  unfold createAssociation
  rw [hget]
  simp [hany]

/-- C3: Delete writes back exactly the read list with every entry whose
id equals the target filter id removed, keeping all other entries (as a
sublist, so in their original relative order); when the id is absent the
written list is the read list unchanged and, with a successful patch,
Delete produces no diagnostics. -/
theorem delete_removes_exactly (model : ModelV0) (getResp : ProjectGetResponse)
    (patchResp : ProjectPatchResponse) (S : List TrafficFilter)
    (hget : getProjectTrafficFilters model.ProjectID model.ProjectType getResp = (some S, [])) :
    (deleteAssociation model getResp patchResp).patchSent =
      some (S.filter (fun f => f.Id != model.TrafficFilterID)) ∧
    (∀ f ∈ S.filter (fun f => f.Id != model.TrafficFilterID),
      f ∈ S ∧ f.Id ≠ model.TrafficFilterID) ∧
    (∀ f ∈ S, f.Id ≠ model.TrafficFilterID →
      f ∈ S.filter (fun f => f.Id != model.TrafficFilterID)) ∧
    List.Sublist (S.filter (fun f => f.Id != model.TrafficFilterID)) S ∧
    ((∀ f ∈ S, f.Id ≠ model.TrafficFilterID) →
      (deleteAssociation model getResp patchResp).patchSent = some S ∧
      (patchResp.err = none → patchResp.json200 = true →
        (deleteAssociation model getResp patchResp).diagnostics = [])) := by
  have hv := getProjectTrafficFilters_ok_valid_type _ _ _ _ hget
  have hdel : deleteAssociation model getResp patchResp =
      ⟨(patchProjectTrafficFilters model.ProjectType
          (S.filter (fun f => f.Id != model.TrafficFilterID)) patchResp).2,
        (patchProjectTrafficFilters model.ProjectType
          (S.filter (fun f => f.Id != model.TrafficFilterID)) patchResp).1⟩ := by
    unfold deleteAssociation
    rw [hget]
    rfl
  have hfil : ∀ f ∈ S.filter (fun f => f.Id != model.TrafficFilterID),
      f ∈ S ∧ f.Id ≠ model.TrafficFilterID := by
    intro f hf
    have := List.mem_filter.mp hf
    exact ⟨this.1, by simpa using this.2⟩
  refine ⟨?_, hfil, ?_, List.filter_sublist S, ?_⟩
  · rw [hdel]
    exact patchProjectTrafficFilters_sent _ _ _ hv
  · intro f hf hne
    exact List.mem_filter.mpr ⟨hf, by simpa using hne⟩
  · intro habs
    have heq : S.filter (fun f => f.Id != model.TrafficFilterID) = S :=
      List.filter_eq_self.mpr (fun f hf => by simpa using habs f hf)
    refine ⟨?_, fun herr hjson => ?_⟩
    · rw [hdel, heq]
      exact patchProjectTrafficFilters_sent _ _ _ hv
    · rw [hdel]
      have := patchProjectTrafficFilters_ok model.ProjectType
        (S.filter (fun f => f.Id != model.TrafficFilterID)) patchResp hv herr hjson
      rw [this]

/-- Witness for C3: deleting filter f from the read list [a, f, b] over a
successful patch writes back [a, b] with no diagnostics. -/
theorem delete_removes_exactly_witness :
    (deleteAssociation ⟨some "p-f", "p", "security", "f"⟩
        ⟨none, some 200, some (some [⟨"a"⟩, ⟨"f"⟩, ⟨"b"⟩]), "200 OK", ""⟩
        ⟨none, some 200, true, "200 OK", ""⟩).patchSent =
      some [⟨"a"⟩, ⟨"b"⟩] :=
  (delete_removes_exactly ⟨some "p-f", "p", "security", "f"⟩
    ⟨none, some 200, some (some [⟨"a"⟩, ⟨"f"⟩, ⟨"b"⟩]), "200 OK", ""⟩
    ⟨none, some 200, true, "200 OK", ""⟩ [⟨"a"⟩, ⟨"f"⟩, ⟨"b"⟩] (by rfl)).1

/-- C5: when the association Read's project read succeeds, a membership
set without the tracked filter id removes the association from state with
no diagnostic, and a membership set containing it keeps the tracked
record unchanged. -/
theorem read_membership_reconcile (model : ModelV0) (getResp : ProjectGetResponse)
    (S : List TrafficFilter)
    (hget : getProjectTrafficFilters model.ProjectID model.ProjectType getResp = (some S, [])) :
    ((∀ f ∈ S, f.Id ≠ model.TrafficFilterID) →
      readAssociation model getResp = ReadOutcome.removed) ∧
    ((∃ f ∈ S, f.Id = model.TrafficFilterID) →
      readAssociation model getResp = ReadOutcome.kept model) := by
  constructor
  · intro habs
    have hany : S.any (fun f => f.Id == model.TrafficFilterID) = false := by
      simp only [List.any_eq_false, beq_iff_eq]
      exact habs
    unfold readAssociation
    rw [hget]
    simp [hany]
  · intro hmem
    have hany : S.any (fun f => f.Id == model.TrafficFilterID) = true := by
      simp only [List.any_eq_true, beq_iff_eq]
      exact hmem
    unfold readAssociation
    rw [hget]
    simp [hany]

/-- Witness for C5: a membership set [a] without the tracked filter id f
makes Read remove the association. -/
theorem read_membership_reconcile_witness :
    readAssociation ⟨some "p-f", "p", "elasticsearch", "f"⟩
        ⟨none, some 200, some (some [⟨"a"⟩]), "200 OK", ""⟩ = ReadOutcome.removed :=
  (read_membership_reconcile ⟨some "p-f", "p", "elasticsearch", "f"⟩
    ⟨none, some 200, some (some [⟨"a"⟩]), "200 OK", ""⟩ [⟨"a"⟩] (by rfl)).1 (by decide)

/-- Witness for C2: a project already containing the filter id yields the
no-write success result with identity "p-f". -/
theorem create_idempotent_witness :
    createAssociation ⟨none, "p", "observability", "f"⟩
        ⟨none, some 200, some (some [⟨"a"⟩, ⟨"f"⟩]), "200 OK", ""⟩
        ⟨none, some 200, true, "200 OK", ""⟩ =
      ⟨[], none, some ⟨some "p-f", "p", "observability", "f"⟩⟩ :=
  create_idempotent ⟨none, "p", "observability", "f"⟩
    ⟨none, some 200, some (some [⟨"a"⟩, ⟨"f"⟩]), "200 OK", ""⟩
    ⟨none, some 200, true, "200 OK", ""⟩ [⟨"a"⟩, ⟨"f"⟩] (by rfl)
    ⟨⟨"f"⟩, by decide, rfl⟩

/-- Counterexample for C4: a 404 on the project read during association
Read is surfaced as a "Project not found" error diagnostic and the
resource is not dropped from state. -/
theorem read_assoc_notfound_counterexample :
    readAssociation ⟨some "p-f", "p", "elasticsearch", "f"⟩
        ⟨none, some 404, none, "404 Not Found", ""⟩ =
      ReadOutcome.errored [⟨"Project not found", "Elasticsearch project p not found"⟩] ∧
    readAssociation ⟨some "p-f", "p", "elasticsearch", "f"⟩
        ⟨none, some 404, none, "404 Not Found", ""⟩ ≠ ReadOutcome.removed :=
  ⟨rfl, by decide⟩

/-- C4 (amended): a NotFound during the filter entity Read drops the
resource from state without a diagnostic, while a NotFound of the project
during the association Read is surfaced as a "Project not found" error
diagnostic instead of dropping the record. -/
theorem read_notfound_disposition (fresp : FilterGetResponse) (model : ModelV0)
    (gresp : ProjectGetResponse)
    (hferr : fresp.err = none) (hf404 : fresp.httpStatus = some 404)
    (hgerr : gresp.err = none) (hg404 : gresp.httpStatus = some 404)
    (hv : model.ProjectType = "elasticsearch" ∨ model.ProjectType = "observability" ∨
      model.ProjectType = "security") :
    readTrafficFilter fresp = FilterReadOutcome.removed ∧
    ∃ d, readAssociation model gresp = ReadOutcome.errored [d] ∧
      d.summary = "Project not found" := by
  constructor
  · simp [readTrafficFilter, hferr, hf404]
  · rcases hv with h | h | h
    · exact ⟨⟨"Project not found", "Elasticsearch project " ++ model.ProjectID ++ " not found"⟩,
        by simp [readAssociation, getProjectTrafficFilters, h,
          getElasticsearchProjectFilters, hgerr, hg404], rfl⟩
    · exact ⟨⟨"Project not found", "Observability project " ++ model.ProjectID ++ " not found"⟩,
        by simp [readAssociation, getProjectTrafficFilters, h,
          getObservabilityProjectFilters, hgerr, hg404], rfl⟩
    · exact ⟨⟨"Project not found", "Security project " ++ model.ProjectID ++ " not found"⟩,
        by simp [readAssociation, getProjectTrafficFilters, h,
          getSecurityProjectFilters, hgerr, hg404], rfl⟩

/-- Witness for C4 (amended) at concrete 404 responses. -/
theorem read_notfound_disposition_witness :
    readTrafficFilter ⟨none, some 404, none, "404 Not Found", ""⟩ =
      FilterReadOutcome.removed ∧
    ∃ d, readAssociation ⟨some "p-f", "p", "elasticsearch", "f"⟩
        ⟨none, some 404, none, "404 Not Found", ""⟩ = ReadOutcome.errored [d] ∧
      d.summary = "Project not found" :=
  read_notfound_disposition ⟨none, some 404, none, "404 Not Found", ""⟩
    ⟨some "p-f", "p", "elasticsearch", "f"⟩ ⟨none, some 404, none, "404 Not Found", ""⟩
    rfl rfl rfl rfl (Or.inl rfl)

/-- Counterexample for C6: an import key whose third component is empty
still has exactly three comma-separated components and is accepted, so
the import parser does not require the components to be non-empty. -/
theorem import_accepts_empty_component :
    splitComma "proj1,elasticsearch," = ["proj1", "elasticsearch", ""] ∧
    importStateAssociation "proj1,elasticsearch," =
      ImportResult.ok "proj1-" "proj1" "elasticsearch" "" :=
  ⟨rfl, rfl⟩

/-- C6 (amended): import parsing succeeds exactly when the key splits
into exactly three comma-separated components (possibly empty) whose
middle component is a recognized project type, setting the four tracked
attributes directly from the components; a component count other than 3
fails with the invalid-format error and an unrecognized project type
fails with the invalid-project-type error. -/
theorem importState_characterization (reqID : String) :
    (∃ pid pt fid, splitComma reqID = [pid, pt, fid] ∧
      (pt = "elasticsearch" ∨ pt = "observability" ∨ pt = "security") ∧
      importStateAssociation reqID =
        ImportResult.ok (pid ++ "-" ++ fid) pid pt fid) ∨
    ((splitComma reqID).length ≠ 3 ∧
      importStateAssociation reqID =
        ImportResult.failed ⟨"Invalid import ID",
          "Expected format: project_id,project_type,traffic_filter_id. Got: " ++ reqID⟩) ∨
    (∃ pid pt fid, splitComma reqID = [pid, pt, fid] ∧
      pt ≠ "elasticsearch" ∧ pt ≠ "observability" ∧ pt ≠ "security" ∧
      importStateAssociation reqID =
        ImportResult.failed ⟨"Invalid project type",
          "project_type must be one of: elasticsearch, observability, security. Got: " ++
            pt⟩) := by
  rcases hs : splitComma reqID with _ | ⟨a, _ | ⟨b, _ | ⟨c, _ | ⟨d, t⟩⟩⟩⟩
  · refine Or.inr (Or.inl ⟨by simp, ?_⟩)
    unfold importStateAssociation
    rw [hs]
  · refine Or.inr (Or.inl ⟨by simp, ?_⟩)
    unfold importStateAssociation
    rw [hs]
  · refine Or.inr (Or.inl ⟨by simp, ?_⟩)
    unfold importStateAssociation
    rw [hs]
  · by_cases hv : b = "elasticsearch" ∨ b = "observability" ∨ b = "security"
    · refine Or.inl ⟨a, b, c, rfl, hv, ?_⟩
      unfold importStateAssociation
      rw [hs]
      have hcond : ¬(b ≠ "elasticsearch" ∧ b ≠ "observability" ∧ b ≠ "security") := by
        tauto
      show (if b ≠ "elasticsearch" ∧ b ≠ "observability" ∧ b ≠ "security" then
          ImportResult.failed ⟨"Invalid project type",
            "project_type must be one of: elasticsearch, observability, security. Got: " ++ b⟩
        else ImportResult.ok (a ++ "-" ++ c) a b c) =
        ImportResult.ok (a ++ "-" ++ c) a b c
      rw [if_neg hcond]
    · push_neg at hv
      refine Or.inr (Or.inr ⟨a, b, c, rfl, hv.1, hv.2.1, hv.2.2, ?_⟩)
      unfold importStateAssociation
      rw [hs]
      show (if b ≠ "elasticsearch" ∧ b ≠ "observability" ∧ b ≠ "security" then
          ImportResult.failed ⟨"Invalid project type",
            "project_type must be one of: elasticsearch, observability, security. Got: " ++ b⟩
        else ImportResult.ok (a ++ "-" ++ c) a b c) =
        ImportResult.failed ⟨"Invalid project type",
          "project_type must be one of: elasticsearch, observability, security. Got: " ++ b⟩
      rw [if_pos hv]
  · refine Or.inr (Or.inl ⟨by simp, ?_⟩)
    unfold importStateAssociation
    rw [hs]

/-- C7: whenever Create records a state, its identity is exactly
`projectID ++ "-" ++ filterID`; whenever ImportState succeeds, the
recorded id is exactly `projectID ++ "-" ++ filterID`; and the identity
recorded by two creates agreeing on project id and filter id is the
same regardless of project kind. -/
theorem identity_determinism :
    (∀ (model : ModelV0) (getResp : ProjectGetResponse)
        (patchResp : ProjectPatchResponse) (st : ModelV0),
      (createAssociation model getResp patchResp).finalState = some st →
      st.ID = some (model.ProjectID ++ "-" ++ model.TrafficFilterID)) ∧
    (∀ reqID id pid pt fid,
      importStateAssociation reqID = ImportResult.ok id pid pt fid →
      id = pid ++ "-" ++ fid) ∧
    (∀ (m1 m2 : ModelV0) g1 p1 g2 p2 (s1 s2 : ModelV0),
      m1.ProjectID = m2.ProjectID → m1.TrafficFilterID = m2.TrafficFilterID →
      (createAssociation m1 g1 p1).finalState = some s1 →
      (createAssociation m2 g2 p2).finalState = some s2 →
      s1.ID = s2.ID) := by
  have h1 : ∀ (model : ModelV0) (getResp : ProjectGetResponse)
      (patchResp : ProjectPatchResponse) (st : ModelV0),
      (createAssociation model getResp patchResp).finalState = some st →
      st.ID = some (model.ProjectID ++ "-" ++ model.TrafficFilterID) := by
    intro model getResp patchResp st h
    unfold createAssociation at h
    rcases hg : getProjectTrafficFilters model.ProjectID model.ProjectType getResp
      with ⟨fo, ds⟩
    rw [hg] at h
    cases ds with
    | cons d ds => simp at h
    | nil =>
      by_cases hany : (fo.getD []).any (fun f => f.Id == model.TrafficFilterID)
      · simp only [hany, if_true] at h
        rw [← Option.some_inj.mp h]
      · simp only [hany, Bool.false_eq_true, if_false] at h
        rcases hp : patchProjectTrafficFilters model.ProjectType
            ((fo.getD []) ++ [⟨model.TrafficFilterID⟩]) patchResp with ⟨sent, pds⟩
        rw [hp] at h
        cases pds with
        | cons d ds => simp at h
        | nil =>
          rw [← Option.some_inj.mp h]
  refine ⟨h1, ?_, ?_⟩
  · intro reqID id pid pt fid h
    unfold importStateAssociation at h
    rcases hs : splitComma reqID with _ | ⟨a, _ | ⟨b, _ | ⟨c, _ | ⟨d, t⟩⟩⟩⟩ <;>
      rw [hs] at h
    · exact absurd h (by simp)
    · exact absurd h (by simp)
    · exact absurd h (by simp)
    · by_cases hcond : b ≠ "elasticsearch" ∧ b ≠ "observability" ∧ b ≠ "security"
      · rw [show (match [a, b, c] with
            | [projectID, projectType, trafficFilterID] =>
              if projectType ≠ "elasticsearch" ∧ projectType ≠ "observability" ∧
                  projectType ≠ "security" then
                ImportResult.failed ⟨"Invalid project type",
                  "project_type must be one of: elasticsearch, observability, security. Got: " ++
                    projectType⟩
              else
                ImportResult.ok (projectID ++ "-" ++ trafficFilterID)
                  projectID projectType trafficFilterID
            | _ =>
              ImportResult.failed ⟨"Invalid import ID",
                "Expected format: project_id,project_type,traffic_filter_id. Got: " ++ reqID⟩) =
            ImportResult.failed ⟨"Invalid project type",
              "project_type must be one of: elasticsearch, observability, security. Got: " ++
                b⟩ from if_pos hcond] at h
        exact absurd h (by simp)
      · rw [show (match [a, b, c] with
            | [projectID, projectType, trafficFilterID] =>
              if projectType ≠ "elasticsearch" ∧ projectType ≠ "observability" ∧
                  projectType ≠ "security" then
                ImportResult.failed ⟨"Invalid project type",
                  "project_type must be one of: elasticsearch, observability, security. Got: " ++
                    projectType⟩
              else
                ImportResult.ok (projectID ++ "-" ++ trafficFilterID)
                  projectID projectType trafficFilterID
            | _ =>
              ImportResult.failed ⟨"Invalid import ID",
                "Expected format: project_id,project_type,traffic_filter_id. Got: " ++ reqID⟩) =
            ImportResult.ok (a ++ "-" ++ c) a b c from if_neg hcond] at h
        simp only [ImportResult.ok.injEq] at h
        rw [← h.1, ← h.2.1, ← h.2.2.2]
    · exact absurd h (by simp)
  · intro m1 m2 g1 p1 g2 p2 s1 s2 hpid hfid h1m h2m
    rw [h1 m1 g1 p1 s1 h1m, h1 m2 g2 p2 s2 h2m, hpid, hfid]

/-- Witness for C7: a concrete create records identity "p-f". -/
theorem identity_determinism_witness :
    (ModelV0.mk (some "p-f") "p" "elasticsearch" "f").ID = some ("p" ++ "-" ++ "f") :=
  identity_determinism.1 ⟨none, "p", "elasticsearch", "f"⟩
    ⟨none, some 200, some (some []), "200 OK", ""⟩
    ⟨none, some 200, true, "200 OK", ""⟩
    ⟨some "p-f", "p", "elasticsearch", "f"⟩ (by rfl)

/-- C8: filter entity Delete succeeds without a diagnostic exactly when
the HTTP status is 200, 204 or 404; every other status yields a fatal
diagnostic whose detail carries the status code, status line and raw
body. -/
theorem delete_filter_status_taxonomy (resp : FilterDeleteResponse) (s : Nat)
    (herr : resp.err = none) (hs : resp.httpStatus = some s) :
    (deleteTrafficFilter resp = [] ↔ (s = 200 ∨ s = 204 ∨ s = 404)) ∧
    (¬(s = 200 ∨ s = 204 ∨ s = 404) →
      deleteTrafficFilter resp =
        [⟨"Failed to delete traffic filter",
          "The API request failed with: " ++ toString s ++ " " ++ resp.status ++ "\n" ++
            resp.body⟩]) := by
  have hcode : statusCodeOf resp.httpStatus = s := by
    rw [hs]; rfl
  rcases Decidable.em (s = 200 ∨ s = 204 ∨ s = 404) with hc | hc
  · have hcond : ¬(s ≠ 200 ∧ s ≠ 204 ∧ s ≠ 404) := by tauto
    constructor
    · simp [deleteTrafficFilter, herr, hcode, hcond, hc]
    · intro hn
      exact absurd hc hn
  · have hcond : s ≠ 200 ∧ s ≠ 204 ∧ s ≠ 404 := by tauto
    have hd : deleteTrafficFilter resp =
        [⟨"Failed to delete traffic filter",
          "The API request failed with: " ++ toString s ++ " " ++ resp.status ++ "\n" ++
            resp.body⟩] := by
      unfold deleteTrafficFilter
      rw [herr]
      simp only [hcode]
      rw [if_pos hcond]
      rfl
    constructor
    · rw [hd]
      simp [hc]
    · intro _
      exact hd

/-- Witness for C8: a 500 status yields the fatal diagnostic with code,
status line and body. -/
theorem delete_filter_status_taxonomy_witness :
    (deleteTrafficFilter ⟨none, some 500, "500 Internal Server Error", "boom"⟩ = [] ↔
      ((500 : Nat) = 200 ∨ (500 : Nat) = 204 ∨ (500 : Nat) = 404)) ∧
    (¬((500 : Nat) = 200 ∨ (500 : Nat) = 204 ∨ (500 : Nat) = 404) →
      deleteTrafficFilter ⟨none, some 500, "500 Internal Server Error", "boom"⟩ =
        [⟨"Failed to delete traffic filter",
          "The API request failed with: " ++ toString (500 : Nat) ++ " " ++
            "500 Internal Server Error" ++ "\n" ++ "boom"⟩]) :=
  delete_filter_status_taxonomy ⟨none, some 500, "500 Internal Server Error", "boom"⟩
    500 rfl rfl

/-- C10: for each recognized project kind, a decoded 200 payload whose
traffic-filters field is absent reads as the empty membership set with no
diagnostics, and Create against such a project patches exactly the
singleton list holding the new filter id. -/
theorem nil_filters_reads_empty (projectID ptype : String) (gresp : ProjectGetResponse)
    (herr : gresp.err = none) (h404 : gresp.httpStatus ≠ some 404)
    (hjson : gresp.json200 = some none)
    (hv : ptype = "elasticsearch" ∨ ptype = "observability" ∨ ptype = "security") :
    getProjectTrafficFilters projectID ptype gresp = (some [], []) ∧
    ∀ (model : ModelV0) (patchResp : ProjectPatchResponse), model.ProjectType = ptype →
      (createAssociation model gresp patchResp).patchSent =
        some [⟨model.TrafficFilterID⟩] := by
  have hget : ∀ pid : String, getProjectTrafficFilters pid ptype gresp = (some [], []) := by
    intro pid
    rcases hv with h | h | h <;> subst h <;>
      simp [getProjectTrafficFilters, getElasticsearchProjectFilters,
        getObservabilityProjectFilters, getSecurityProjectFilters, herr, h404, hjson]
  refine ⟨hget projectID, ?_⟩
  intro model patchResp hpt
  have habs : ∀ f ∈ ([] : List TrafficFilter), f.Id ≠ model.TrafficFilterID := by
    intro f hf
    exact absurd hf (List.not_mem_nil f)
  have := createAssociation_patchSent_of_not_member model gresp patchResp []
    (by rw [hpt]; exact hget model.ProjectID) habs
  simpa using this

/-- Witness for C10: Create on an observability project whose decoded
payload has no traffic-filters field patches exactly the singleton
[f]. -/
theorem nil_filters_reads_empty_witness :
    (createAssociation ⟨none, "p", "observability", "f"⟩
        ⟨none, some 200, some none, "200 OK", ""⟩
        ⟨none, some 200, true, "200 OK", ""⟩).patchSent = some [⟨"f"⟩] :=
  (nil_filters_reads_empty "p" "observability" ⟨none, some 200, some none, "200 OK", ""⟩
    rfl (by decide) rfl (Or.inr (Or.inl rfl))).2 ⟨none, "p", "observability", "f"⟩
    ⟨none, some 200, true, "200 OK", ""⟩ rfl

/-- Counterexample for C9: at the same 404 response the observability and
security membership-read branches produce distinct diagnostics (the
detail names the project kind), so the branches do not compute the very
same diagnostics as functions of the response. -/
theorem kind_branch_diag_counterexample :
    getObservabilityProjectFilters "p" ⟨none, some 404, none, "404 Not Found", ""⟩ ≠
      getSecurityProjectFilters "p" ⟨none, some 404, none, "404 Not Found", ""⟩ ∧
    getObservabilityProjectFilters "p" ⟨none, some 404, none, "404 Not Found", ""⟩ =
      (none, [⟨"Project not found", "Observability project p not found"⟩]) ∧
    getSecurityProjectFilters "p" ⟨none, some 404, none, "404 Not Found", ""⟩ =
      (none, [⟨"Project not found", "Security project p not found"⟩]) :=
  ⟨by decide, rfl, rfl⟩

/-- Away from the err-free 404 case, the three membership-read branches
agree entirely. -/
theorem getBranches_agree_off_404 (projectID : String) (gresp : ProjectGetResponse)
    (h : ¬(gresp.err = none ∧ gresp.httpStatus = some 404)) :
    getElasticsearchProjectFilters projectID gresp =
      getObservabilityProjectFilters projectID gresp ∧
    getObservabilityProjectFilters projectID gresp =
      getSecurityProjectFilters projectID gresp := by
  rcases herr : gresp.err with _ | e
  · have h404 : ¬ gresp.httpStatus = some 404 := fun hc => h ⟨herr, hc⟩
    constructor <;>
      simp [getElasticsearchProjectFilters, getObservabilityProjectFilters,
        getSecurityProjectFilters, herr, h404]
  · constructor <;>
      simp [getElasticsearchProjectFilters, getObservabilityProjectFilters,
        getSecurityProjectFilters, herr]

/-- In the err-free 404 case each membership-read branch fails with the
"Project not found" summary, the detail naming its project kind. -/
theorem getBranches_404 (projectID : String) (gresp : ProjectGetResponse)
    (herr : gresp.err = none) (h404 : gresp.httpStatus = some 404) :
    getElasticsearchProjectFilters projectID gresp =
      (none, [⟨"Project not found", "Elasticsearch project " ++ projectID ++ " not found"⟩]) ∧
    getObservabilityProjectFilters projectID gresp =
      (none, [⟨"Project not found", "Observability project " ++ projectID ++ " not found"⟩]) ∧
    getSecurityProjectFilters projectID gresp =
      (none, [⟨"Project not found", "Security project " ++ projectID ++ " not found"⟩]) := by
  refine ⟨?_, ?_, ?_⟩ <;>
    simp [getElasticsearchProjectFilters, getObservabilityProjectFilters,
      getSecurityProjectFilters, herr, h404]

/-- C9 (amended): the three project-kind branches are behaviorally
equivalent as functions of the response — same returned membership set,
same diagnostic summaries, identical diagnostics away from the err-free
404 case, and identical patch behavior on the same sent filter set —
except that the 404 error detail names the project kind. -/
theorem kind_dispatch_equiv (projectID : String) (gresp : ProjectGetResponse)
    (filters : List TrafficFilter) (presp : ProjectPatchResponse) :
    (getElasticsearchProjectFilters projectID gresp).1 =
      (getObservabilityProjectFilters projectID gresp).1 ∧
    (getObservabilityProjectFilters projectID gresp).1 =
      (getSecurityProjectFilters projectID gresp).1 ∧
    (getElasticsearchProjectFilters projectID gresp).2.map Diagnostic.summary =
      (getObservabilityProjectFilters projectID gresp).2.map Diagnostic.summary ∧
    (getObservabilityProjectFilters projectID gresp).2.map Diagnostic.summary =
      (getSecurityProjectFilters projectID gresp).2.map Diagnostic.summary ∧
    (¬(gresp.err = none ∧ gresp.httpStatus = some 404) →
      getElasticsearchProjectFilters projectID gresp =
        getObservabilityProjectFilters projectID gresp ∧
      getObservabilityProjectFilters projectID gresp =
        getSecurityProjectFilters projectID gresp) ∧
    (gresp.err = none → gresp.httpStatus = some 404 →
      (getElasticsearchProjectFilters projectID gresp).2 =
        [⟨"Project not found", "Elasticsearch project " ++ projectID ++ " not found"⟩] ∧
      (getObservabilityProjectFilters projectID gresp).2 =
        [⟨"Project not found", "Observability project " ++ projectID ++ " not found"⟩] ∧
      (getSecurityProjectFilters projectID gresp).2 =
        [⟨"Project not found", "Security project " ++ projectID ++ " not found"⟩]) ∧
    patchElasticsearchProjectFilters filters presp =
      patchObservabilityProjectFilters filters presp ∧
    patchObservabilityProjectFilters filters presp =
      patchSecurityProjectFilters filters presp := by
  by_cases hc : gresp.err = none ∧ gresp.httpStatus = some 404
  · obtain ⟨h1, h2, h3⟩ := getBranches_404 projectID gresp hc.1 hc.2
    refine ⟨?_, ?_, ?_, ?_, fun hn => absurd hc hn,
      fun _ _ => ⟨?_, ?_, ?_⟩, rfl, rfl⟩
    · rw [h1, h2]
    · rw [h2, h3]
    · rw [h1, h2]; rfl
    · rw [h2, h3]; rfl
    · rw [h1]
    · rw [h2]
    · rw [h3]
  · obtain ⟨h1, h2⟩ := getBranches_agree_off_404 projectID gresp hc
    refine ⟨by rw [h1], by rw [h2], by rw [h1], by rw [h2],
      fun _ => ⟨h1, h2⟩, fun herr h404 => absurd ⟨herr, h404⟩ hc, rfl, rfl⟩

/-- Witness for C9 (amended) at a concrete non-404 success response. -/
theorem kind_dispatch_equiv_witness :
    (getElasticsearchProjectFilters "p"
        ⟨none, some 200, some (some [⟨"a"⟩]), "200 OK", ""⟩).1 =
      (getObservabilityProjectFilters "p"
        ⟨none, some 200, some (some [⟨"a"⟩]), "200 OK", ""⟩).1 ∧
    ¬((none : Option String) = none ∧ (some 200 : Option Nat) = some 404) ∧
    getElasticsearchProjectFilters "p"
        ⟨none, some 200, some (some [⟨"a"⟩]), "200 OK", ""⟩ =
      getObservabilityProjectFilters "p"
        ⟨none, some 200, some (some [⟨"a"⟩]), "200 OK", ""⟩ :=
  ⟨(kind_dispatch_equiv "p" ⟨none, some 200, some (some [⟨"a"⟩]), "200 OK", ""⟩
      [] ⟨none, some 200, true, "200 OK", ""⟩).1,
    by decide,
    ((kind_dispatch_equiv "p" ⟨none, some 200, some (some [⟨"a"⟩]), "200 OK", ""⟩
      [] ⟨none, some 200, true, "200 OK", ""⟩).2.2.2.2.1 (by decide)).1⟩
